import Mathlib

/-!
Verification of `tools/extractTIABs.py`: a single-pass extractor turning
PubMed distribution XML citations into per-record title+abstract text files.

The embedding models one `MedlineCitation` element as a `Citation` value
(lists of children stand for `findall` results, `Option String` stands for
ElementTree `.text` which may be `None`), the command-line options as an
`Options` record, and the body of the per-citation loop of `process`
(lines 91-215 of the source) as `processCitation`, returning
`Except PyError (Outcome × List Msg)`:

* `PyError` has one constructor per statement of the loop that can raise
  (each `assert`, the `int()` conversions, and the `TypeError`s that the
  source raises while *formatting* some messages: the verbose range-skip
  note applies a one-specifier format string to a two-element tuple, and
  the title/abstract count asserts call `len` with two arguments).
* `Msg` has one constructor per `print >> sys.stderr` site that can run on
  a non-raising path, so claims about what is logged (and when verbose
  gates it) are statable.  Messages printed on a path that subsequently
  raises are dropped by the `Except` model; no claim depends on them.
* `Outcome` distinguishes a range-filtered (skipped) citation from an
  emitted one; an emitted outcome carries the PMID text and the exact byte
  content written to the output file.

`processCitations` folds the loop over a list of citations, threading the
`output_count` / `skipped_count` counters and collecting the written files
as `(path, content)` pairs, path built like
`os.path.join(options.output_dir, filenamebase, textPMID + ".txt")`.
-/

namespace ExtractTIABs

/-- An `<AbstractText>` element: the optional `Label` attribute
(`at.attrib.get("Label")`) and the element text (`at.text`, `None` when
the element is empty). -/
structure AbstractText where
  label : Option String
  text : Option String
deriving DecidableEq, Repr

/-- An `<Abstract>` or `<OtherAbstract>` element, reduced to its
`findall("AbstractText")` result. -/
structure AbstractBlock where
  abstractTexts : List AbstractText
deriving DecidableEq, Repr

/-- An `<Article>` element, reduced to `findall("ArticleTitle")` (each
title is its `.text`, possibly `None`) and `findall("Abstract")`. -/
structure Article where
  articleTitles : List (Option String)
  abstracts : List AbstractBlock
deriving DecidableEq, Repr

/-- A `<MedlineCitation>` element: `findall("PMID")` (each PMID is its
`.text`), `findall("Article")` and `findall("OtherAbstract")`. -/
structure Citation where
  pmids : List (Option String)
  articles : List Article
  otherAbstracts : List AbstractBlock
deriving DecidableEq, Repr

/-- The command-line options that `process` reads (field names follow the
`argparse` destinations in the source). -/
structure Options where
  output_dir : String
  PMID_greater_than : Option Int
  PMID_lower_than : Option Int
  single_line_abstract : Bool
  verbose : Bool
deriving DecidableEq, Repr

/-- One constructor per raising statement of the per-citation loop. -/
inductive PyError where
  /-- line 93: `assert len(PMIDs) == 1` (carries the count). -/
  | assertPmidCount (n : Nat)
  /-- lines 99/101: `int(None)` raises `TypeError`. -/
  | typeErrorIntOfNone
  /-- lines 99/101: `int()` on text that is not an integer literal raises
  `ValueError` (carries the offending text). -/
  | valueErrorInt (s : String)
  /-- lines 105/107: the verbose skip note applies a format string with a
  single `%d` to a two-element tuple, raising `TypeError`. -/
  | typeErrorSkipNote
  /-- line 116: `assert len(articles) == 1`; the assertion message embeds
  `PMID.text`, modelled by the carried fields. -/
  | assertArticleCount (n : Nat) (pmid : Option String)
  /-- line 121: the assertion message evaluates `len(articleTitles,
  PMID.text)`, so a title-count violation raises `TypeError`. -/
  | typeErrorTitleCountMsg
  /-- line 126: the assertion message evaluates `len(abstracts,
  PMID.text)`, so an abstract-count violation raises `TypeError`. -/
  | typeErrorAbstractCountMsg
  /-- line 147: `assert len(abstractTexts) != 0` (message embeds
  `PMID.text`). -/
  | assertAbstractTextsEmpty (pmid : Option String)
  /-- line 199: `re.match` applied to `None` raises `TypeError`. -/
  | typeErrorReMatchNone
  /-- line 199: `assert re.match(r'^\d+$', textPMID)` (carries the text). -/
  | assertPmidFormat (s : String)
  /-- line 205: `textTitle.encode("UTF-8")` with `textTitle = None`
  raises `AttributeError` (modelled as one constructor). -/
  | attrErrorEncodeNone
deriving DecidableEq, Repr

/-- One constructor per stderr print site reachable on a non-raising
path of the per-citation loop. -/
inductive Msg where
  /-- line 138: multiple `OtherAbstract` children (verbose only). -/
  | noteManyOtherAbstracts (n : Nat) (pmid : Option String)
  /-- line 159: multiple `AbstractText` children (verbose only). -/
  | noteManyAbstractTexts (pmid : Option String)
  /-- line 171: skipping an empty `UNLABELLED` segment (verbose only). -/
  | noteSkipUnlabelled (pmid : Option String)
  /-- line 178: missing `Label` attribute (always printed). -/
  | warnMissingLabel (pmid : Option String)
  /-- line 181: empty text in one of multiple segments (always printed). -/
  | noteEmptyAbstractText (pmid : Option String)
  /-- line 209: no abstract for an emitted record (verbose only). -/
  | noteNoAbstract (pmid : Option String)
deriving DecidableEq, Repr

/-- Per-citation outcome: range-filtered, or emitted with the PMID text
and the exact content written to the output file. -/
inductive Outcome where
  | skipped
  | emitted (pmid : String) (content : String)
deriving DecidableEq, Repr

/-- Python `s.strip()`: drop leading and trailing whitespace. (Written
over the character list so the kernel can evaluate it on literals.) -/
def pyStrip (s : String) : String :=
  ⟨((s.data.dropWhile Char.isWhitespace).reverse.dropWhile Char.isWhitespace).reverse⟩

/-- Decimal value of a digit list. -/
def digitsToNat (cs : List Char) : Nat :=
  cs.foldl (fun n c => n * 10 + (c.toNat - 48)) 0

/-- Python `int(s)` on a string: optional surrounding whitespace, an
optional sign, then one or more decimal digits; anything else raises
`ValueError` (here: `none`). -/
def pyInt (s : String) : Option Int :=
  match (pyStrip s).data with
  | '-' :: rest =>
    if !rest.isEmpty && rest.all Char.isDigit then some (-(digitsToNat rest : Int))
    else none
  | '+' :: rest =>
    if !rest.isEmpty && rest.all Char.isDigit then some ((digitsToNat rest : Int))
    else none
  | cs =>
    if !cs.isEmpty && cs.all Char.isDigit then some ((digitsToNat cs : Int))
    else none

/-- `int(PMID.text)`: `TypeError` on `None`, else `pyInt`. -/
def pyIntOfText (t : Option String) : Except PyError Int :=
  match t with
  | none => .error .typeErrorIntOfNone
  | some s =>
    match pyInt s with
    | some n => .ok n
    | none => .error (.valueErrorInt s)

/-- `at.text is None or at.text.strip() == ""`. -/
def pyEmptyText (t : Option String) : Bool :=
  match t with
  | none => true
  | some s => pyStrip s == ""

/-- `re.match(r'^\d+$', s)` as a Boolean: one or more ASCII digits, with
`$` also matching just before a single trailing newline. -/
def reDigitsMatch (s : String) : Bool :=
  (!s.data.isEmpty && s.data.all Char.isDigit) ||
  (match s.data.getLast? with
   | some c =>
     c == '\n' && (!s.data.dropLast.isEmpty && s.data.dropLast.all Char.isDigit)
   | none => false)

/-- Line 199 check: `re.match` raises `TypeError` on `None`. -/
def reMatchPmid (t : Option String) : Except PyError Bool :=
  match t with
  | none => .error .typeErrorReMatchNone
  | some s => .ok (reDigitsMatch s)

/-- Lines 98-101: the range-filter condition
`(gt is not None and int(text) <= gt) or (lt is not None and int(text) >= lt)`,
with Python short-circuit evaluation order (so `int()` runs, and can
raise, exactly when a bound forces it). `.ok true` means the citation is
out of range and is to be skipped. -/
def rangeFilterHit (opts : Options) (pmidText : Option String) : Except PyError Bool :=
  match opts.PMID_greater_than with
  | some gt =>
    match pyIntOfText pmidText with
    | .error e => .error e
    | .ok n =>
      if n ≤ gt then .ok true
      else
        match opts.PMID_lower_than with
        | some lt =>
          match pyIntOfText pmidText with
          | .error e => .error e
          | .ok m => .ok (decide (lt ≤ m))
        | none => .ok false
  | none =>
    match opts.PMID_lower_than with
    | some lt =>
      match pyIntOfText pmidText with
      | .error e => .error e
      | .ok m => .ok (decide (lt ≤ m))
    | none => .ok false

/-- Lines 162-187: one iteration of the multi-segment loop. Returns the
contribution appended to `sectionTexts` (`none` when the segment is
dropped by the empty-`UNLABELLED` rule) together with the messages the
iteration prints. -/
def processSegment (opts : Options) (pmid : Option String) (seg : AbstractText) :
    Option String × List Msg :=
  if pyEmptyText seg.text && (seg.label.getD "" == "UNLABELLED") then
    (none, if opts.verbose then [Msg.noteSkipUnlabelled pmid] else [])
  else
    let tm1 : String × List Msg :=
      match seg.label with
      | some l => (l ++ ":", [])
      | none => ("", [Msg.warnMissingLabel pmid])
    let tm2 : String × List Msg :=
      if pyEmptyText seg.text then (tm1.1, [Msg.noteEmptyAbstractText pmid])
      else (tm1.1 ++ (if opts.single_line_abstract then " " else "\n") ++ seg.text.getD "",
            [])
    (some tm2.1, tm1.2 ++ tm2.2)

/-- Lines 160-192: the multi-segment assembly: run `processSegment` over
the segments in document order, keep the retained contributions, and join
them with a space in single-line mode and a newline otherwise. -/
def assembleMulti (opts : Options) (pmid : Option String) (segs : List AbstractText) :
    String × List Msg :=
  let pieces := segs.map (processSegment opts pmid)
  (String.intercalate (if opts.single_line_abstract then " " else "\n")
     (pieces.filterMap Prod.fst),
   (pieces.map Prod.snd).flatten)

/-- Lines 144-192, given the chosen abstract block: fatal when the block
has no `AbstractText` children; a single segment yields its `.text`
verbatim; two or more segments go through `assembleMulti` (preceded, in
verbose mode, by the multiple-`AbstractText` note). -/
def abstractFromBlock (opts : Options) (pmid : Option String) (ab : AbstractBlock) :
    Except PyError (Option String × List Msg) :=
  match ab.abstractTexts with
  | [] => .error (.assertAbstractTextsEmpty pmid)
  | [seg] => .ok (seg.text, [])
  | segs =>
    let ms0 := if opts.verbose then [Msg.noteManyAbstractTexts pmid] else []
    let tm := assembleMulti opts pmid segs
    .ok (some tm.1, ms0 ++ tm.2)

/-- Lines 127-140: choose the abstract source: the Article-level
`Abstract` when present, otherwise the first citation-level
`OtherAbstract` (noting, in verbose mode only, when there are several);
`none` when neither exists. -/
def chooseAbstract (opts : Options) (pmid : Option String) (c : Citation) (a : Article) :
    Option AbstractBlock × List Msg :=
  match a.abstracts with
  | ab :: _ => (some ab, [])
  | [] =>
    match c.otherAbstracts with
    | [] => (none, [])
    | ob :: rest =>
      (some ob,
       if 1 < rest.length + 1 ∧ opts.verbose then
         [Msg.noteManyOtherAbstracts (rest.length + 1) pmid]
       else [])

/-- `if textAbstract:` — Python truthiness of the abstract text
(`None` and `""` are falsy). -/
def truthyStr (t : Option String) : Bool :=
  match t with
  | none => false
  | some s => s != ""

/-- Lines 205-207: the file content: the title line, then — exactly when
the abstract text is truthy — the abstract (each `print >> out` appends a
newline). -/
def outputContent (title : String) (textAbstract : Option String) : String :=
  title ++ "\n" ++ (if truthyStr textAbstract then textAbstract.getD "" ++ "\n" else "")

/-- Lines 142-144: `textAbstract` starts as `""` and is replaced from the
chosen block only when one exists. -/
def abstractResult (opts : Options) (pmid : Option String) (abOpt : Option AbstractBlock) :
    Except PyError (Option String × List Msg) :=
  match abOpt with
  | none => .ok (some "", [])
  | some ab => abstractFromBlock opts pmid ab

/-- Lines 91-215: the body of the per-citation loop. -/
def processCitation (opts : Options) (c : Citation) :
    Except PyError (Outcome × List Msg) :=
  match c.pmids with
  | [pmidText] =>
    match rangeFilterHit opts pmidText with
    | .error e => .error e
    | .ok hit =>
      if hit then
        -- lines 102-108: in verbose mode the skip note crashes while
        -- formatting; otherwise the citation is counted as skipped.
        if opts.verbose then .error .typeErrorSkipNote
        else .ok (.skipped, [])
      else
        match c.articles with
        | [article] =>
          match article.articleTitles with
          | [articleTitle] =>
            if 2 ≤ article.abstracts.length then .error .typeErrorAbstractCountMsg
            else
              let am := chooseAbstract opts pmidText c article
              match abstractResult opts pmidText am.1 with
              | .error e => .error e
              | .ok tam =>
                match reMatchPmid pmidText with
                | .error e => .error e
                | .ok fmtOk =>
                  if fmtOk then
                    match articleTitle with
                    | none => .error .attrErrorEncodeNone
                    | some titleText =>
                      let ms3 :=
                        if !truthyStr tam.1 && opts.verbose then
                          [Msg.noteNoAbstract pmidText]
                        else []
                      .ok (.emitted (pmidText.getD "") (outputContent titleText tam.1),
                           am.2 ++ tam.2 ++ ms3)
                  else .error (.assertPmidFormat (pmidText.getD ""))
          | _ => .error .typeErrorTitleCountMsg
        | arts => .error (.assertArticleCount arts.length pmidText)
  | ps => .error (.assertPmidCount ps.length)

/-- Run-wide counters (`output_count`, `skipped_count`). -/
structure RunState where
  output_count : Nat
  skipped_count : Nat
deriving DecidableEq, Repr

/-- `os.path.join(options.output_dir, filenamebase, textPMID + ".txt")`. -/
def outputPath (outputDir filenamebase pmid : String) : String :=
  outputDir ++ "/" ++ filenamebase ++ "/" ++ pmid ++ ".txt"

/-- The per-file loop over citations: thread the counters and collect the
written files in order as `(path, content)` pairs, stopping at the first
raised error (an uncaught exception aborts the whole run). -/
def processCitations (opts : Options) (base : String) :
    List Citation → RunState → Except PyError (RunState × List (String × String) × List Msg)
  | [], st => .ok (st, [], [])
  | c :: rest, st =>
    match processCitation opts c with
    | .error e => .error e
    | .ok om =>
      match om.1 with
      | .skipped =>
        match processCitations opts base rest ⟨st.output_count, st.skipped_count + 1⟩ with
        | .error e => .error e
        | .ok r => .ok (r.1, r.2.1, om.2 ++ r.2.2)
      | .emitted p content =>
        match processCitations opts base rest ⟨st.output_count + 1, st.skipped_count⟩ with
        | .error e => .error e
        | .ok r => .ok (r.1, (outputPath opts.output_dir base p, content) :: r.2.1,
                        om.2 ++ r.2.2)

/-! ## Concrete fixtures used by the witnesses and counterexample evaluations -/

/-- Default options: `texts/` output, no bounds, multi-line, quiet. -/
def opts0 : Options := ⟨"texts", none, none, false, false⟩

/-- `--PMID-greater-than 100 --PMID-lower-than 200` (default mode). -/
def optsGL : Options := ⟨"texts", some 100, some 200, false, false⟩

/-- `--PMID-greater-than 100` only (default mode). -/
def optsGt : Options := ⟨"texts", some 100, none, false, false⟩

/-- `--PMID-greater-than 100 --verbose`. -/
def optsVgt : Options := ⟨"texts", some 100, none, false, true⟩

/-- `--PMID-lower-than 200` only (default mode). -/
def optsLt : Options := ⟨"texts", none, some 200, false, false⟩

/-- `--PMID-lower-than 200 --verbose`. -/
def optsVlt : Options := ⟨"texts", none, some 200, false, true⟩

/-- A minimal well-formed citation with the given PMID text, title
`"T" ++ p`, and no abstract. -/
def mkC (p : String) : Citation := ⟨[some p], [⟨[some ("T" ++ p)], []⟩], []⟩

/-- A labelled, non-blank segment. -/
def segA : AbstractText := ⟨some "OBJECTIVE", some "aa"⟩

/-- A second labelled, non-blank segment. -/
def segB : AbstractText := ⟨some "RESULTS", some "bb"⟩

/-- An `UNLABELLED` segment with whitespace-only body. -/
def segU : AbstractText := ⟨some "UNLABELLED", some " "⟩

/-- A citation with two `Article` children (PMID in range of no filter). -/
def cTwoArticles : Citation := ⟨[some "7"], [⟨[], []⟩, ⟨[], []⟩], []⟩

/-- A citation with two `Article` children and PMID 50 (out of range for
`optsGt`). -/
def cFiltered2Arts : Citation := ⟨[some "50"], [⟨[], []⟩, ⟨[], []⟩], []⟩

/-- The article of `cNoAbs`: one title, no abstract. -/
def artNoAbs : Article := ⟨[some "TT"], []⟩

/-- A citation with a title but neither `Abstract` nor `OtherAbstract`. -/
def cNoAbs : Citation := ⟨[some "123"], [artNoAbs], []⟩

/-- Citation with title `"T"` and a one-segment abstract whose body is
`"A\nB"`. -/
def cRound : Citation := ⟨[some "11"], [⟨[some "T"], [⟨[⟨none, some "A\nB"⟩]⟩]⟩], []⟩

/-! ## Helper lemmas -/

/-- The per-segment contribution the spec describes for a labelled,
non-blank segment: label, colon, separator, body. -/
def specSegmentContribution (opts : Options) (seg : AbstractText) : String :=
  seg.label.getD "" ++ ":" ++ (if opts.single_line_abstract then " " else "\n")
    ++ seg.text.getD ""

theorem processSegment_labeled_nonblank (opts : Options) (pmid : Option String)
    (seg : AbstractText) (hl : seg.label.isSome) (ht : pyEmptyText seg.text = false) :
    processSegment opts pmid seg = (some (specSegmentContribution opts seg), []) := by
  obtain ⟨l, hl⟩ := Option.isSome_iff_exists.mp hl
  simp [processSegment, specSegmentContribution, hl, ht]

theorem fst_filterMap_contribs (opts : Options) (pmid : Option String)
    (segs : List AbstractText)
    (hall : ∀ seg ∈ segs, seg.label.isSome ∧ pyEmptyText seg.text = false) :
    (segs.map (processSegment opts pmid)).filterMap Prod.fst
      = segs.map (specSegmentContribution opts) := by
  induction segs with
  | nil => rfl
  | cons a l ih =>
    have ha := hall a (by simp)
    have hA := processSegment_labeled_nonblank opts pmid a ha.1 ha.2
    have hl := ih (fun seg h => hall seg (by simp [h]))
    rw [List.map_cons, List.filterMap_cons, hA, List.map_cons, hl]

theorem snd_flatten_contribs (opts : Options) (pmid : Option String)
    (segs : List AbstractText)
    (hall : ∀ seg ∈ segs, seg.label.isSome ∧ pyEmptyText seg.text = false) :
    ((segs.map (processSegment opts pmid)).map Prod.snd).flatten = [] := by
  induction segs with
  | nil => rfl
  | cons a l ih =>
    have ha := hall a (by simp)
    have hA := processSegment_labeled_nonblank opts pmid a ha.1 ha.2
    rw [List.map_cons, List.map_cons, List.flatten_cons, hA,
        ih (fun seg h => hall seg (by simp [h]))]
    rfl

theorem assembleMulti_all_labeled (opts : Options) (pmid : Option String)
    (segs : List AbstractText)
    (hall : ∀ seg ∈ segs, seg.label.isSome ∧ pyEmptyText seg.text = false) :
    assembleMulti opts pmid segs =
      (String.intercalate (if opts.single_line_abstract then " " else "\n")
        (segs.map (specSegmentContribution opts)), []) := by
  rw [assembleMulti, fst_filterMap_contribs opts pmid segs hall,
      snd_flatten_contribs opts pmid segs hall]

/-! ## Claims -/

/-- **C1**: for a chosen abstract block with two or more segments, each
labelled and with a non-blank body (non-empty in the code's sense:
`strip()` nonempty), the assembled abstract text is the document-order
join of the contributions `label ++ ":" ++ SEP ++ body` with separator
`SEP`, where `SEP` is `"\n"` in multi-line (default) mode and `" "` in
single-line mode. -/
theorem multiSegment_assembled_text (opts : Options) (pmid : Option String)
    (segs : List AbstractText) (hlen : 2 ≤ segs.length)
    (hall : ∀ seg ∈ segs, seg.label.isSome ∧ pyEmptyText seg.text = false) :
    abstractFromBlock opts pmid ⟨segs⟩ =
      .ok (some (String.intercalate (if opts.single_line_abstract then " " else "\n")
                  (segs.map (specSegmentContribution opts))),
           if opts.verbose then [Msg.noteManyAbstractTexts pmid] else []) := by
  match segs, hlen with
  | a :: b :: l, _ =>
    have h := assembleMulti_all_labeled opts pmid (a :: b :: l) hall
    simp [abstractFromBlock, h]

/-- Witness for C1 at a concrete two-segment block in default (multi-line,
quiet) mode. -/
theorem multiSegment_assembled_text_witness :
    (2 ≤ [segA, segB].length ∧ ∀ seg ∈ [segA, segB],
      seg.label.isSome ∧ pyEmptyText seg.text = false)
    ∧ abstractFromBlock opts0 (some "1") ⟨[segA, segB]⟩ =
        .ok (some (String.intercalate "\n" ([segA, segB].map (specSegmentContribution opts0))),
             []) :=
  ⟨⟨by decide, by decide⟩,
   multiSegment_assembled_text opts0 (some "1") [segA, segB] (by decide) (by decide)⟩

/-- **C3**: a segment with empty/missing (or whitespace-only) body and
label exactly `"UNLABELLED"` contributes nothing to the assembled text —
inserting it anywhere in the segment list leaves the assembled string
unchanged — and processing it prints nothing unless verbose mode is on. -/
theorem unlabelled_empty_segment_dropped (opts : Options) (pmid : Option String)
    (xs ys : List AbstractText) (seg : AbstractText)
    (ht : pyEmptyText seg.text = true) (hl : seg.label = some "UNLABELLED") :
    (assembleMulti opts pmid (xs ++ seg :: ys)).1 = (assembleMulti opts pmid (xs ++ ys)).1 ∧
    (opts.verbose = false → (processSegment opts pmid seg).2 = []) := by
  have hseg : processSegment opts pmid seg =
      (none, if opts.verbose then [Msg.noteSkipUnlabelled pmid] else []) := by
    simp [processSegment, hl, ht]
  refine ⟨?_, ?_⟩
  · simp [assembleMulti, hseg]
  · intro hv
    simp [hseg, hv]

/-- Witness for C3: dropping a whitespace-only `UNLABELLED` segment
between two labelled segments, in quiet mode. -/
theorem unlabelled_empty_segment_dropped_witness :
    (pyEmptyText segU.text = true ∧ segU.label = some "UNLABELLED") ∧
    ((assembleMulti opts0 (some "2") ([segA] ++ segU :: [segB])).1 =
      (assembleMulti opts0 (some "2") ([segA] ++ [segB])).1 ∧
     (opts0.verbose = false → (processSegment opts0 (some "2") segU).2 = [])) :=
  ⟨⟨by decide, by decide⟩,
   unlabelled_empty_segment_dropped opts0 (some "2") [segA] [segB] segU
     (by decide) (by decide)⟩

/-- **C4**: a chosen abstract block with exactly one segment yields that
segment's body text verbatim — no label prefix, no separators — including
an empty or missing body, and this is not an error (the result is
`.ok`). -/
theorem single_segment_verbatim (opts : Options) (pmid : Option String)
    (seg : AbstractText) :
    abstractFromBlock opts pmid ⟨[seg]⟩ = .ok (seg.text, []) := rfl

/-- **C5**: for a citation reaching validation, each cardinality
violation — PMID count ≠ 1, Article count ≠ 1 (the error carries the
identifier, as the source assertion message embeds `PMID.text`), Title
count ≠ 1, more than one Abstract, or a chosen Abstract/OtherAbstract
block with zero `AbstractText` children — makes the per-citation step
raise, so the run aborts (the loop propagates the error) and no file is
written for that citation (an `.error` result carries no emitted
content).  For the Title and Abstract counts the raise is a `TypeError`
from the assertion's own malformed message expression (`len` applied to
two arguments), still an immediate fatal abort at the assert statement. -/
theorem validation_failures_abort (opts : Options) (c : Citation) :
    (c.pmids.length ≠ 1 → ∃ e, processCitation opts c = .error e) ∧
    (∀ e base st rest, processCitation opts c = .error e →
      processCitations opts base (c :: rest) st = .error e) ∧
    (∀ pmidText, c.pmids = [pmidText] → rangeFilterHit opts pmidText = .ok false →
      (c.articles.length ≠ 1 →
        processCitation opts c = .error (.assertArticleCount c.articles.length pmidText)) ∧
      (∀ a, c.articles = [a] →
        (a.articleTitles.length ≠ 1 →
          processCitation opts c = .error .typeErrorTitleCountMsg) ∧
        (∀ t, a.articleTitles = [t] →
          (2 ≤ a.abstracts.length →
            processCitation opts c = .error .typeErrorAbstractCountMsg) ∧
          (∀ ab, (a.abstracts = [ab] ∨
                  (a.abstracts = [] ∧ c.otherAbstracts.head? = some ab)) →
            ab.abstractTexts = [] →
            processCitation opts c = .error (.assertAbstractTextsEmpty pmidText))))) := by
  refine ⟨?_, ?_, ?_⟩
  · intro hn
    rcases hp : c.pmids with _ | ⟨p, _ | ⟨q, r⟩⟩
    · exact ⟨.assertPmidCount 0, by simp [processCitation, hp]⟩
    · rw [hp] at hn
      simp at hn
    · exact ⟨.assertPmidCount (q :: r).length.succ, by simp [processCitation, hp]⟩
  · intro e base st rest he
    simp [processCitations, he]
  · intro pmidText hp hr
    refine ⟨?_, ?_⟩
    · intro hn
      rcases ha : c.articles with _ | ⟨a, _ | ⟨b, r⟩⟩
      · simp [processCitation, hp, hr, ha]
      · rw [ha] at hn
        simp at hn
      · simp [processCitation, hp, hr, ha]
    · intro a ha
      refine ⟨?_, ?_⟩
      · intro hn
        rcases htl : a.articleTitles with _ | ⟨t, _ | ⟨u, r⟩⟩
        · simp [processCitation, hp, hr, ha, htl]
        · rw [htl] at hn
          simp at hn
        · simp [processCitation, hp, hr, ha, htl]
      · intro t htl
        refine ⟨?_, ?_⟩
        · intro hn
          simp [processCitation, hp, hr, ha, htl, hn]
        · intro ab hab hempty
          rcases hab with hab | ⟨hab, hoth⟩
          · simp [processCitation, hp, hr, ha, htl, hab, chooseAbstract,
                  abstractResult, abstractFromBlock, hempty]
          · rcases hob : c.otherAbstracts with _ | ⟨ob, rest⟩
            · rw [hob] at hoth
              simp at hoth
            · rw [hob] at hoth
              simp at hoth
              subst hoth
              simp [processCitation, hp, hr, ha, htl, hab, hob, chooseAbstract,
                    abstractResult, abstractFromBlock, hempty]

/-- Witness for C5: a citation with two `Article` children aborts with
the article-count assertion, whose message carries the identifier. -/
theorem validation_failures_abort_witness :
    (cTwoArticles.pmids = [some "7"] ∧ rangeFilterHit opts0 (some "7") = .ok false ∧
     cTwoArticles.articles.length ≠ 1) ∧
    processCitation opts0 cTwoArticles = .error (.assertArticleCount 2 (some "7")) :=
  ⟨⟨rfl, rfl, by decide⟩,
   ((validation_failures_abort opts0 cTwoArticles).2.2 (some "7") rfl rfl).1 (by decide)⟩

/-- **C6**: the citation-level `OtherAbstract` is consulted only when the
Article has no `Abstract` (an existing `Abstract` is chosen regardless of
`OtherAbstract` children); when `OtherAbstract` blocks exist the first in
document order is chosen, non-fatally, the multiplicity note appearing
only in verbose mode (quiet mode prints nothing here); and when neither
source exists the abstract text is empty and the record is still emitted
(`.ok`, title-only content). -/
theorem otherAbstract_fallback (opts : Options) (pmid : Option String)
    (c : Citation) (a : Article) :
    (∀ ab rest, a.abstracts = ab :: rest → (chooseAbstract opts pmid c a).1 = some ab) ∧
    (a.abstracts = [] → (chooseAbstract opts pmid c a).1 = c.otherAbstracts.head?) ∧
    (opts.verbose = false → (chooseAbstract opts pmid c a).2 = []) ∧
    (∀ ob rest, a.abstracts = [] → c.otherAbstracts = ob :: rest → rest ≠ [] →
      opts.verbose = true →
      (chooseAbstract opts pmid c a).2 = [Msg.noteManyOtherAbstracts (rest.length + 1) pmid]) ∧
    (∀ p t, c.pmids = [some p] → rangeFilterHit opts (some p) = .ok false →
      c.articles = [a] → a.articleTitles = [some t] →
      a.abstracts = [] → c.otherAbstracts = [] → reDigitsMatch p = true →
      processCitation opts c =
        .ok (.emitted p (t ++ "\n"),
             if opts.verbose then [Msg.noteNoAbstract (some p)] else [])) := by
  refine ⟨?_, ?_, ?_, ?_, ?_⟩
  · intro ab rest hab
    simp [chooseAbstract, hab]
  · intro hab
    rcases hob : c.otherAbstracts with _ | ⟨ob, rest⟩ <;> simp [chooseAbstract, hab, hob]
  · intro hv
    rcases hab : a.abstracts with _ | ⟨ab, rest⟩
    · rcases hob : c.otherAbstracts with _ | ⟨ob, r2⟩ <;>
        simp [chooseAbstract, hab, hob, hv]
    · simp [chooseAbstract, hab]
  · intro ob rest hab hob hrest hv
    simp [chooseAbstract, hab, hob, hv, hrest, List.length_pos.mpr hrest]
  · intro p t hp hr ha htl hab hob hfmt
    rcases hv : opts.verbose <;>
      simp [processCitation, hp, hr, ha, htl, hab, hob, chooseAbstract,
            abstractResult, reMatchPmid, hfmt, truthyStr, outputContent, hv]

/-- Witness for C6: a record with a title and no abstract source of
either kind is emitted with title-only content. -/
theorem otherAbstract_fallback_witness :
    (cNoAbs.pmids = [some "123"] ∧ rangeFilterHit opts0 (some "123") = .ok false ∧
     cNoAbs.articles = [artNoAbs] ∧ artNoAbs.articleTitles = [some "TT"] ∧
     artNoAbs.abstracts = [] ∧ cNoAbs.otherAbstracts = [] ∧
     reDigitsMatch "123" = true) ∧
    processCitation opts0 cNoAbs = .ok (.emitted "123" ("TT" ++ "\n"), []) :=
  ⟨⟨rfl, rfl, rfl, rfl, rfl, rfl, by decide⟩,
   (otherAbstract_fallback opts0 (some "123") cNoAbs artNoAbs).2.2.2.2 "123" "TT"
     rfl rfl rfl rfl rfl rfl (by decide)⟩

/-- Split a character list at every occurrence of `c` (the text-file
line decomposition used to state the round-trip below). -/
def splitOnChar (c : Char) : List Char → List (List Char)
  | [] => [[]]
  | a :: rest =>
    match splitOnChar c rest with
    | [] => [[]]
    | h :: t => if a == c then [] :: h :: t else (a :: h) :: t

/-- Decompose a string at newlines (`"T\nA\nB\n"` gives
`["T", "A", "B", ""]`: three lines and the trailing terminator). -/
def splitNl (s : String) : List String :=
  (splitOnChar (Char.ofNat 10) s.data).map (fun cs => ⟨cs⟩)

/-- **C7**: the content written for an emitted record is the title as the
first line followed by the assembled abstract text exactly when that text
is non-empty; the record with title `"T"` and abstract `"A\nB"` is
written to `<output-dir>/<package-id>/<identifier>.txt` with first line
exactly `"T"` and subsequent content exactly `"A\nB"`. -/
theorem emitted_file_layout :
    (∀ title : String, ∀ ta : Option String,
      (truthyStr ta = true →
        outputContent title ta = title ++ "\n" ++ ta.getD "" ++ "\n") ∧
      (truthyStr ta = false → outputContent title ta = title ++ "\n")) ∧
    processCitations opts0 "medline12n0001" [cRound] ⟨0, 0⟩ =
      .ok (⟨1, 0⟩, [("texts/medline12n0001/11.txt", "T\nA\nB\n")], []) ∧
    splitNl (outputContent "T" (some "A\nB")) = ["T", "A", "B", ""] := by
  refine ⟨?_, rfl, by decide⟩
  intro title ta
  constructor <;> intro h <;> simp [outputContent, h, String.append_assoc]

/-- Witness for C7 at the round-trip record. -/
theorem emitted_file_layout_witness :
    truthyStr (some "A\nB") = true ∧
    outputContent "T" (some "A\nB") = "T" ++ "\n" ++ "A\nB" ++ "\n" :=
  ⟨by decide, (emitted_file_layout.1 "T" (some "A\nB")).1 (by decide)⟩

/-- **C2** (code bug in verbose mode): with bounds 100/200 in the default
quiet mode, PMID 100 is skipped, 150 emitted, 200 skipped — the counters
end at one output and two skips and only the 150 file is written.  But in
verbose mode the skip path raises `TypeError` while formatting the skip
note (a one-specifier format string applied to a two-element tuple), so
the citation is not counted and the run aborts. -/
theorem range_filter_counters :
    processCitation optsVgt (mkC "50") = .error .typeErrorSkipNote ∧
    processCitation optsGL (mkC "100") = .ok (.skipped, []) ∧
    processCitation optsGL (mkC "200") = .ok (.skipped, []) ∧
    processCitations optsGL "medline12n0001" [mkC "100", mkC "150", mkC "200"] ⟨0, 0⟩ =
      .ok (⟨1, 2⟩, [("texts/medline12n0001/150.txt", "T150\n")], []) :=
  ⟨rfl, rfl, rfl, rfl⟩

/-- **C8** (code bug in verbose mode): in quiet mode an out-of-range
citation is skipped recoverably — counted, nothing printed, and the loop
continues to emit the next citation.  In verbose mode the same skip
raises `TypeError` in the note-formatting line, aborting the run. -/
theorem skip_is_recoverable_quiet_only :
    processCitation optsVlt (mkC "250") = .error .typeErrorSkipNote ∧
    processCitations optsLt "medline12n0001" [mkC "250", mkC "42"] ⟨0, 0⟩ =
      .ok (⟨1, 1⟩, [("texts/medline12n0001/42.txt", "T42\n")], []) :=
  ⟨rfl, rfl⟩

/-- **C9** (code bug in verbose mode): the range filter runs before any
Article/Title/Abstract validation: an out-of-range citation with two
`Article` children is skipped in quiet mode without the article-count
assertion firing (the same citation aborts with that assertion when it is
in range), but in verbose mode the skip path itself aborts — with the
note-formatting `TypeError`, not the article-count assertion. -/
theorem filter_precedes_validation :
    processCitation optsGt cFiltered2Arts = .ok (.skipped, []) ∧
    processCitation optsVgt cFiltered2Arts = .error .typeErrorSkipNote ∧
    processCitation opts0 cFiltered2Arts = .error (.assertArticleCount 2 (some "50")) :=
  ⟨rfl, rfl, rfl⟩

/-- **C10**: when at least one bound is configured the filter converts
the identifier text with `int()` before anything else, so a
non-integer-parseable identifier aborts at the filtering step as a
`ValueError` — not via the numeric-form assertion, which runs only later
(line 199, just before the write) and only for records that are actually
emitted: without bounds the same bad identifier reaches that assertion
instead, and a skipped record never reaches it even when its identifier
(e.g. `"+0"`, accepted by `int()` but rejected by `^\d+$`) would fail
it. -/
theorem int_conversion_precedes_format_assert (opts : Options) (s : String)
    (c : Citation)
    (hb : opts.PMID_greater_than ≠ none ∨ opts.PMID_lower_than ≠ none)
    (hs : pyInt s = none) (hp : c.pmids = [some s]) :
    (rangeFilterHit opts (some s) = .error (.valueErrorInt s) ∧
     processCitation opts c = .error (.valueErrorInt s)) ∧
    processCitation opts0 (mkC "abc") = .error (.assertPmidFormat "abc") ∧
    processCitation optsGt (mkC "+0") = .ok (.skipped, []) ∧
    reDigitsMatch "+0" = false := by
  have hr : rangeFilterHit opts (some s) = .error (.valueErrorInt s) := by
    rcases hgt : opts.PMID_greater_than with _ | gt
    · rcases hlt : opts.PMID_lower_than with _ | lt
      · rcases hb with hb | hb
        · exact absurd hgt hb
        · exact absurd hlt hb
      · simp [rangeFilterHit, hgt, hlt, pyIntOfText, hs]
    · simp [rangeFilterHit, hgt, pyIntOfText, hs]
  refine ⟨⟨hr, ?_⟩, rfl, rfl, by decide⟩
  simp [processCitation, hp, hr]

/-- Witness for C10: with a lower bound configured, identifier text
`"abc"` aborts at the filter as a conversion error. -/
theorem int_conversion_precedes_format_assert_witness :
    ((optsGt.PMID_greater_than ≠ none ∨ optsGt.PMID_lower_than ≠ none) ∧
     pyInt "abc" = none ∧ (mkC "abc").pmids = [some "abc"]) ∧
    (rangeFilterHit optsGt (some "abc") = .error (.valueErrorInt "abc") ∧
     processCitation optsGt (mkC "abc") = .error (.valueErrorInt "abc")) :=
  ⟨⟨Or.inl (by decide), by decide, rfl⟩,
   (int_conversion_precedes_format_assert optsGt "abc" (mkC "abc")
     (Or.inl (by decide)) (by decide) rfl).1⟩

end ExtractTIABs
